import Mathlib

/-!
Verification of `src/core/poster.py` (publish-helper): poster extraction,
download, upload orchestration and temporary-file cleanup.

The Python code is shallowly embedded:

* JSON-like Python values become the inductive type `PyVal`; a Python `dict`
  with string keys is an association list `PyDict` (keys unique in practice,
  first binding wins, matching `dict` lookup).
* Python's `in` operator and `[...]` indexing are partial on arbitrary
  values (`TypeError` on non-containers); they are embedded as
  `Except String`-valued operations, `.error` standing for a raised exception.
* Network and filesystem effects are oracles: the behaviour of
  `requests.get` is a `NetOutcome`, the behaviour of the file-write stage a
  `WriteOutcome`, and the collaborators of the orchestrator
  (`download_poster` / `upload_picture` / `os.remove`) are fields of an
  environment `Env`.  The filesystem is the set (list) of existing paths.
-/

/-- JSON-like Python values as delivered by the PT-Gen API (no floats are
needed by any code path modelled here). -/
inductive PyVal where
  | str : String → PyVal
  | int : Int → PyVal
  | bool : Bool → PyVal
  | none : PyVal
  | list : List PyVal → PyVal
  | dict : List (String × PyVal) → PyVal

/-- A Python `dict` with string keys, as an association list. -/
abbrev PyDict := List (String × PyVal)

/-- Lookup `d[k]` on a dict: first binding for the key (Python dicts have
unique keys, so first-match agrees with `dict.__getitem__`). -/
def dictGet : PyDict → String → Option PyVal
  | [], _ => Option.none
  | (k, v) :: rest, key => if k = key then Option.some v else dictGet rest key

/-- Python truthiness (`bool(v)`) for the embedded values. -/
def pyTruthy : PyVal → Bool
  | .str s => !s.isEmpty
  | .int n => n != 0
  | .bool b => b
  | .none => false
  | .list l => !l.isEmpty
  | .dict d => !d.isEmpty

/-- Python `==` between a value and a string: only equal strings compare
equal (`str == non-str` is `False` for the embedded types). -/
def pyEqStr : PyVal → String → Bool
  | .str s, k => s = k
  | _, _ => false

/-- Python's `key in v` for a string `key`: dict key membership, substring
test on strings, element membership on lists; raises `TypeError` on
non-container values. -/
def pyContains : PyVal → String → Except String Bool
  | .dict d, k => .ok (dictGet d k).isSome
  | .str s, k => .ok (decide (List.IsInfix k.data s.data))
  | .list l, k => .ok (l.any (fun v => pyEqStr v k))
  | .int _, _ => .error "TypeError: argument of type int is not iterable"
  | .bool _, _ => .error "TypeError: argument of type bool is not iterable"
  | .none, _ => .error "TypeError: argument of type NoneType is not iterable"

/-- Python's `v[key]` for a string `key`: dict lookup (`KeyError` when the
key is absent); strings and lists demand integer indices, everything else is
not subscriptable — all raising, i.e. `.error`. -/
def pyGetItem : PyVal → String → Except String PyVal
  | .dict d, k =>
    match dictGet d k with
    | Option.some v => .ok v
    | Option.none => .error "KeyError"
  | .str _, _ => .error "TypeError: string indices must be integers"
  | .list _, _ => .error "TypeError: list indices must be integers"
  | .int _, _ => .error "TypeError: int is not subscriptable"
  | .bool _, _ => .error "TypeError: bool is not subscriptable"
  | .none, _ => .error "TypeError: NoneType is not subscriptable"

/-- The candidate poster keys, in the order the source lists them. -/
def possible_fields : List String := ["poster", "img", "image", "cover", "posterUrl"]

/-- The top-level loop of `get_poster_url_from_data`:
`if field in data and data[field]: return data[field]` over a `dict`.
Membership and indexing on a dict never raise. -/
def scanTop (d : PyDict) : List String → Option PyVal
  | [] => Option.none
  | f :: rest =>
    match dictGet d f with
    | Option.some v => if pyTruthy v then Option.some v else scanTop d rest
    | Option.none => scanTop d rest

/-- The nested loop of `get_poster_url_from_data` over `data['data']`, which
may be any value: `field in sub` or `sub[field]` can raise. -/
def scanNested (sub : PyVal) : List String → Except String (Option PyVal)
  | [] => .ok Option.none
  | f :: rest => do
    let b ← pyContains sub f
    if b then do
      let x ← pyGetItem sub f
      if pyTruthy x then return (Option.some x) else scanNested sub rest
    else
      scanNested sub rest

/-- Embedding of `get_poster_url_from_data` (poster.py lines 13–42): scan the five
candidate keys at top level, then, if a `data` key is present, the same scan
under `data['data']`; return `''` when nothing matches.  An `.error` result
is a raised Python exception. -/
def get_poster_url_from_data (data : PyDict) : Except String PyVal :=
  match scanTop data possible_fields with
  | Option.some v => .ok v
  | Option.none =>
    match dictGet data "data" with
    | Option.some sub =>
      match scanNested sub possible_fields with
      | .error e => .error e
      | .ok (Option.some v) => .ok v
      | .ok Option.none => .ok (.str "")
    | Option.none => .ok (.str "")

/-- The shape the spec's data model promises: the value under the `data`
key, when present, is itself a mapping. -/
def dataIsDict (data : PyDict) : Bool :=
  match dictGet data "data" with
  | Option.some (.dict _) => true
  | Option.some _ => false
  | Option.none => true

/-- The value of the earliest candidate key bound to a truthy value in a
dict (the claim's phrasing of one scan round). -/
def firstTruthy (d : PyDict) : Option PyVal :=
  possible_fields.findSome?
    (fun f => (dictGet d f).bind (fun v => if pyTruthy v then Option.some v else Option.none))

/-- Modelled from the claim's words (refinement side of C1): the value of
the earliest candidate key present with a truthy value at top level; failing
that, the earliest such key under the `data` sub-mapping when one is
present; else the empty string. -/
def claimExtract (data : PyDict) : PyVal :=
  match firstTruthy data with
  | Option.some v => v
  | Option.none =>
    match dictGet data "data" with
    | Option.some (.dict sub) =>
      match firstTruthy sub with
      | Option.some v => v
      | Option.none => .str ""
    | _ => .str ""

/-- Python `s.startswith(pre)`: code-point prefix test. -/
def pyStartsWith (s pre : String) : Bool := pre.data.isPrefixOf s.data

/-- Python `s.endswith(suf)`: code-point suffix test. -/
def pyEndsWith (s suf : String) : Bool := suf.data.isSuffixOf s.data

/-- Python `s[n:]`: drop the first `n` code points. -/
def pyDrop (s : String) (n : Nat) : String := String.mk (s.data.drop n)

/-- Python `s[:-n]`: drop the last `n` code points. -/
def pyDropRight (s : String) (n : Nat) : String := String.mk (s.data.take (s.data.length - n))

/-- Embedding of `os.path.dirname` for POSIX paths: the prefix of the last `/` with
trailing slashes stripped unless the prefix is all slashes; `""` when the
path has no `/` at all. -/
def dirname (p : String) : String :=
  let cs := p.data
  match cs.reverse.findIdx? (fun c => c = '/') with
  | Option.none => ""
  | Option.some j =>
    let head := cs.take (cs.length - j)
    if head.all (fun c => c = '/') then String.mk head
    else String.mk ((head.reverse.dropWhile (fun c => c = '/')).reverse)

/-- The possible outcomes of `requests.get(poster_url, ...)`: a response
with a status code and streamed chunks, or one of the exception classes the
source handles. -/
inductive NetOutcome where
  | resp (status : Nat) (chunks : List (List Nat))
  | timeout
  | reqError (msg : String)
  | exc (msg : String)

/-- The possible outcomes of the local write stage (`os.makedirs` on a
non-empty directory, `open`, `f.write`): success, an `IOError`/`OSError`, or
any other exception; `created` records whether the destination file came
into existence before the failure. -/
inductive WriteOutcome where
  | ok
  | ioError (msg : String) (created : Bool)
  | exc (msg : String) (created : Bool)

/-- Embedding of `download_poster` (poster.py lines 45–107), over the network and write
oracles.  The filesystem is the list of existing paths; the result is the
`(success, message-or-path)` pair together with the filesystem afterwards.
`os.makedirs(os.path.dirname(save_path), exist_ok=True)` on an empty dirname
raises `FileNotFoundError` (an `OSError`, caught by the `except IOError`
arm), which is CPython behaviour embedded directly. -/
def download_poster (net : NetOutcome) (wr : WriteOutcome) (poster_url save_path : String)
    (fs : List String) : (Bool × String) × List String :=
  if poster_url.isEmpty then ((false, "Poster URL is empty"), fs)
  else
    match net with
    | .timeout => ((false, "Poster download timeout (30s)"), fs)
    | .reqError m => ((false, "Poster download request error: " ++ m), fs)
    | .exc m => ((false, "Unexpected error: " ++ m), fs)
    | .resp status _ =>
      if status ≠ 200 then
        ((false, "Failed to download poster, status code: " ++ toString status), fs)
      else if dirname save_path = "" then
        ((false, "Failed to save poster file: [Errno 2] No such file or directory: ''"), fs)
      else
        match wr with
        | .ok => ((true, save_path), save_path :: fs)
        | .ioError m created =>
          ((false, "Failed to save poster file: " ++ m), if created then save_path :: fs else fs)
        | .exc m created =>
          ((false, "Unexpected error: " ++ m), if created then save_path :: fs else fs)

/-- Embedding of `os.path.join` for the shapes used here (a directory and a relative
file name). -/
def joinPath (dir name : String) : String :=
  if name.startsWith "/" then name
  else if dir.isEmpty || dir.endsWith "/" then dir ++ name
  else dir ++ "/" ++ name

/-- Embedding of `os.remove` on the set-of-paths filesystem. -/
def fsRemove (fs : List String) (p : String) : List String :=
  fs.filter (fun q => q ≠ p)

/-- The environment of one `process_poster` run: the system temp directory
(`tempfile.gettempdir()`), the CPython identity `id(poster_url)` used in the
temp file name, the behaviours of the two collaborators
(`download_poster` and `upload_picture`, both filesystem transformers whose
`.error` outcome is a raised exception), and whether `os.remove` raises on a
given path during cleanup. -/
structure Env where
  sysTempDir : String
  urlId : Nat
  dl : PyVal → String → List String → (Except String (Bool × String)) × List String
  ul : String → String → String → List String → (Except String (Bool × String)) × List String
  rmFails : String → Bool

/-- The temp file name `poster_{id(poster_url)}.jpg`. -/
def tempFileName (env : Env) : String := "poster_" ++ toString env.urlId ++ ".jpg"

/-- The temp file path: `os.path.join(temp_dir, ...)` with the given temp
directory, or the system one when the argument is `None`. -/
def resolveTempPath (env : Env) (temp_dir : Option String) : String :=
  joinPath (temp_dir.getD env.sysTempDir) (tempFileName env)

/-- The `try` block of `process_poster` (poster.py lines 136–174):
download, short-circuit on failure, upload, short-circuit on failure, unwrap
the `[img]...[/img]` markup; an `.error` outcome is an exception escaping
the block. -/
def process_poster_body (env : Env) (poster_url : PyVal) (api tok : String)
    (temp_dir : Option String) (fs : List String) :
    Except String (Bool × String) × List String :=
  let tfp := resolveTempPath env temp_dir
  match env.dl poster_url tfp fs with
  | (.error e, fs1) => (.error e, fs1)
  | (.ok (false, msg), fs1) => (.ok (false, "Failed to download poster: " ++ msg), fs1)
  | (.ok (true, _), fs1) =>
    match env.ul api tok tfp fs1 with
    | (.error e, fs2) => (.error e, fs2)
    | (.ok (false, msg), fs2) => (.ok (false, "Failed to upload poster: " ++ msg), fs2)
    | (.ok (true, res), fs2) =>
      if pyStartsWith res "[img]" && pyEndsWith res "[/img]" then
        (.ok (true, pyDropRight (pyDrop res 5) 6), fs2)
      else
        (.ok (true, res), fs2)

/-- Embedding of `process_poster` (poster.py lines 110–187): the `try` block, the
`except Exception` arm turning an escaped exception into a
`(False, 'Error during poster processing: ...')` result, and the `finally`
cleanup that removes the temp file when it exists, swallowing a removal
failure.  The temp path is assigned before anything can raise, and is a
non-empty string, so the `if temp_file_path and os.path.exists(...)` guard
reduces to the existence test. -/
def process_poster (env : Env) (poster_url : PyVal) (api tok : String)
    (temp_dir : Option String) (fs : List String) : (Bool × String) × List String :=
  let tfp := resolveTempPath env temp_dir
  let body := process_poster_body env poster_url api tok temp_dir fs
  let res :=
    match body.1 with
    | .ok p => p
    | .error e => (false, "Error during poster processing: " ++ e)
  let fs2 :=
    if tfp ∈ body.2 then
      if env.rmFails tfp then body.2 else fsRemove body.2 tfp
    else body.2
  (res, fs2)

/-- Embedding of `get_poster_from_pt_gen_response` (poster.py lines 190–213): extract,
short-circuit on a falsy extraction result, otherwise delegate to
`process_poster`.  The wrapper installs no handler, so an exception raised
by the extractor propagates (`.error`). -/
def get_poster_from_pt_gen_response (env : Env) (pt_gen_data : PyDict) (api tok : String)
    (temp_dir : Option String) (fs : List String) :
    Except String ((Bool × String) × List String) :=
  match get_poster_url_from_data pt_gen_data with
  | .error e => .error e
  | .ok v =>
    if pyTruthy v then .ok (process_poster env v api tok temp_dir fs)
    else .ok ((false, "No poster URL found in PT-Gen response"), fs)

/-! ### Extractor lemmas -/

theorem scanTop_eq_findSome (d : PyDict) (fields : List String) :
    scanTop d fields
      = fields.findSome?
          (fun f => (dictGet d f).bind
            (fun v => if pyTruthy v then Option.some v else Option.none)) := by
  induction fields with
  | nil => rfl
  | cons f rest ih =>
    rw [List.findSome?_cons]
    cases h : dictGet d f with
    | none => simpa [scanTop, h] using ih
    | some v =>
      by_cases hv : pyTruthy v = true
      · simp [scanTop, h, hv]
      · simp only [Bool.not_eq_true] at hv
        simpa [scanTop, h, hv] using ih

theorem scanNested_dict (sub : PyDict) (fields : List String) :
    scanNested (.dict sub) fields = .ok (scanTop sub fields) := by
  induction fields with
  | nil => rfl
  | cons f rest ih =>
    cases h : dictGet sub f with
    | none =>
      simp [scanNested, pyContains, scanTop, h, ih, Bind.bind, Except.bind]
    | some v =>
      by_cases hv : pyTruthy v = true
      · simp [scanNested, pyContains, pyGetItem, scanTop, h, hv, Bind.bind, Except.bind,
          Pure.pure, Except.pure]
      · simp only [Bool.not_eq_true] at hv
        simp [scanNested, pyContains, pyGetItem, scanTop, h, hv, ih, Bind.bind, Except.bind]

theorem scanTop_truthy (d : PyDict) (fields : List String) (v : PyVal)
    (h : scanTop d fields = Option.some v) : pyTruthy v = true := by
  induction fields with
  | nil => simp [scanTop] at h
  | cons f rest ih =>
    revert h
    cases hf : dictGet d f with
    | none => simp only [scanTop, hf]; exact ih
    | some w =>
      by_cases hw : pyTruthy w = true
      · simp only [scanTop, hf, hw, if_true]
        intro h
        cases h
        exact hw
      · simp only [scanTop, hf, hw, Bool.false_eq_true, if_false]
        exact ih

/-- On a mapping whose `data` value (when present) is itself a mapping, the
source extractor is exactly the claim-level priority extraction. -/
theorem extract_eq_claim (data : PyDict) (h : dataIsDict data = true) :
    get_poster_url_from_data data = .ok (claimExtract data) := by
  have htopeq : scanTop data possible_fields = firstTruthy data :=
    scanTop_eq_findSome data possible_fields
  unfold get_poster_url_from_data
  rw [htopeq]
  cases htop : firstTruthy data with
  | some v => simp [claimExtract, htop]
  | none =>
    cases hd : dictGet data "data" with
    | none => simp [claimExtract, htop, hd]
    | some sub =>
      unfold dataIsDict at h
      rw [hd] at h
      cases sub with
      | dict d2 =>
        have hsubeq : scanTop d2 possible_fields = firstTruthy d2 :=
          scanTop_eq_findSome d2 possible_fields
        simp only [scanNested_dict, hsubeq]
        cases hsub : firstTruthy d2 with
        | some v => simp [claimExtract, htop, hd, hsub]
        | none => simp [claimExtract, htop, hd, hsub]
      | str s => simp at h
      | int n => simp at h
      | bool b => simp at h
      | none => simp at h
      | list l => simp at h

/-- C1: for every response mapping (with the spec's data-model shape — the
value under the `data` key, when present, is itself a mapping),
`get_poster_url_from_data` returns the value of the earliest key among
`poster, img, image, cover, posterUrl` present with a truthy value at top
level; failing that, the value of the earliest such key under the `data`
sub-mapping when one is present; and the empty string when nothing matches —
i.e. it coincides with the claim-level extraction `claimExtract`. -/
theorem extraction_returns_priority_value (data : PyDict)
    (h : dataIsDict data = true) :
    get_poster_url_from_data data = .ok (claimExtract data) :=
  extract_eq_claim data h

theorem extraction_returns_priority_value_witness :
    dataIsDict [("image", PyVal.str "b"), ("img", PyVal.str "a")] = true
    ∧ get_poster_url_from_data [("image", PyVal.str "b"), ("img", PyVal.str "a")]
        = .ok (claimExtract [("image", PyVal.str "b"), ("img", PyVal.str "a")]) :=
  ⟨by decide, extraction_returns_priority_value _ (by decide)⟩

/-- C6 counterexample: on the mapping `{'data': 5}` the extractor raises a
`TypeError` (the membership test `field in data['data']` on an `int`), so it
does have an error path on schema-free input. -/
theorem extraction_raises_on_int_data :
    get_poster_url_from_data [("data", PyVal.int 5)]
      = .error "TypeError: argument of type int is not iterable" := rfl

/-- C6 (amended): `get_poster_url_from_data` completes without raising on
every mapping whose `data` value, when present, is itself a mapping, and on
those mappings absence is signalled by returning the empty string; when the
`data` value is present but not a mapping the membership test may raise a
`TypeError`. -/
theorem extraction_no_raise_on_mapping_data (data : PyDict)
    (h : dataIsDict data = true) :
    (∃ v, get_poster_url_from_data data = .ok v)
    ∧ (claimExtract data = .str "" → get_poster_url_from_data data = .ok (.str "")) :=
  ⟨⟨claimExtract data, extract_eq_claim data h⟩,
   fun he => by rw [extract_eq_claim data h, he]⟩

theorem extraction_no_raise_on_mapping_data_witness :
    dataIsDict [("data", PyVal.dict [])] = true
    ∧ ((∃ v, get_poster_url_from_data [("data", PyVal.dict [])] = .ok v)
       ∧ (claimExtract [("data", PyVal.dict [])] = .str ""
          → get_poster_url_from_data [("data", PyVal.dict [])] = .ok (.str ""))) :=
  ⟨by decide, extraction_no_raise_on_mapping_data _ (by decide)⟩

/-! ### Downloader lemmas -/

theorem isEmpty_false_of_ne (s : String) (h : s ≠ "") : s.isEmpty = false := by
  cases hs : s.isEmpty
  · rfl
  · exact absurd ((String.isEmpty_iff s).mp hs) h

/-- Two appends differ when the left parts differ at a position inside
both. -/
theorem append_ne_append_of_ne_at (p q s t : String) (i : Nat)
    (hp : i < p.data.length) (hq : i < q.data.length)
    (hne : p.data[i]? ≠ q.data[i]?) : p ++ s ≠ q ++ t := by
  intro he
  apply hne
  have hdata : p.data ++ s.data = q.data ++ t.data := by
    rw [← String.data_append, ← String.data_append, he]
  calc p.data[i]? = (p.data ++ s.data)[i]? := (List.getElem?_append_left hp).symm
    _ = (q.data ++ t.data)[i]? := by rw [hdata]
    _ = q.data[i]? := List.getElem?_append_left hq

/-- C7: with an empty poster URL, `download_poster` fails with the
"Poster URL is empty" message whatever the network and write oracles do —
in particular the result does not depend on the network outcome, so no HTTP
GET is consulted — and the filesystem is untouched. -/
theorem download_empty_url_no_network (net : NetOutcome) (wr : WriteOutcome)
    (save_path : String) (fs : List String) :
    download_poster net wr "" save_path fs = ((false, "Poster URL is empty"), fs) := rfl

/-- C8: a response with a status code other than 200 makes
`download_poster` fail with a message carrying that status code, and the
destination file is not written (the filesystem is unchanged). -/
theorem download_non200_reports_status (status : Nat) (chunks : List (List Nat))
    (wr : WriteOutcome) (url save_path : String) (fs : List String)
    (hurl : url ≠ "") (hst : status ≠ 200) :
    download_poster (.resp status chunks) wr url save_path fs
      = ((false, "Failed to download poster, status code: " ++ toString status), fs) := by
  simp [download_poster, isEmpty_false_of_ne url hurl, hst]

theorem download_non200_reports_status_witness :
    ("http://h/p.jpg" : String) ≠ "" ∧ (404 : Nat) ≠ 200
    ∧ download_poster (.resp 404 []) .ok "http://h/p.jpg" "/tmp/p.jpg" []
        = ((false, "Failed to download poster, status code: " ++ toString 404), []) :=
  ⟨by decide, by decide,
   download_non200_reports_status 404 [] .ok "http://h/p.jpg" "/tmp/p.jpg" []
     (by decide) (by decide)⟩

/-- C10: when the destination path has no directory component
(`os.path.dirname` gives `""`), `download_poster` fails through the
local-I/O branch even on a non-empty URL and a 200 response, because
`os.makedirs('')` raises `FileNotFoundError`; the file is not written. -/
theorem download_bare_filename_io_failure (url save_path : String)
    (chunks : List (List Nat)) (wr : WriteOutcome) (fs : List String)
    (hurl : url ≠ "") (hdir : dirname save_path = "") :
    download_poster (.resp 200 chunks) wr url save_path fs
      = ((false, "Failed to save poster file: [Errno 2] No such file or directory: ''"), fs) := by
  simp [download_poster, isEmpty_false_of_ne url hurl, hdir]

theorem download_bare_filename_io_failure_witness :
    ("http://h/p.jpg" : String) ≠ "" ∧ dirname "poster.jpg" = ""
    ∧ download_poster (.resp 200 []) .ok "http://h/p.jpg" "poster.jpg" []
        = ((false, "Failed to save poster file: [Errno 2] No such file or directory: ''"), []) :=
  ⟨by decide, by decide,
   download_bare_filename_io_failure "http://h/p.jpg" "poster.jpg" [] .ok []
     (by decide) (by decide)⟩

/-- C4: `download_poster` converts every handled failure cause into a
`(False, message)` result — a timeout, a generic request error, a local
I/O (write) failure and any other exception each land in their own handler
with their own message — and the three specific messages are pairwise
distinct for the same underlying exception text.  The embedding is a total
function into `(Bool × String) × filesystem`, so no outcome of the oracles
escapes as an exception. -/
theorem download_failure_taxonomy (url save_path m : String) (wr : WriteOutcome)
    (fs : List String) (created : Bool) (chunks : List (List Nat))
    (hurl : url ≠ "") (hdir : dirname save_path ≠ "") :
    (download_poster .timeout wr url save_path fs).1
      = (false, "Poster download timeout (30s)")
    ∧ (download_poster (.reqError m) wr url save_path fs).1
      = (false, "Poster download request error: " ++ m)
    ∧ (download_poster (.exc m) wr url save_path fs).1
      = (false, "Unexpected error: " ++ m)
    ∧ (download_poster (.resp 200 chunks) (.ioError m created) url save_path fs).1
      = (false, "Failed to save poster file: " ++ m)
    ∧ (download_poster (.resp 200 chunks) (.exc m created) url save_path fs).1
      = (false, "Unexpected error: " ++ m)
    ∧ ("Poster download timeout (30s)" : String) ≠ "Poster download request error: " ++ m
    ∧ ("Poster download timeout (30s)" : String) ≠ "Failed to save poster file: " ++ m
    ∧ ("Poster download request error: " ++ m : String) ≠ "Failed to save poster file: " ++ m := by
  have h1 : url.isEmpty = false := isEmpty_false_of_ne url hurl
  refine ⟨by simp [download_poster, h1], by simp [download_poster, h1],
    by simp [download_poster, h1], by simp [download_poster, h1, hdir],
    by simp [download_poster, h1, hdir], ?_, ?_, ?_⟩
  · have := append_ne_append_of_ne_at "Poster download timeout (30s)"
      "Poster download request error: " "" m 16 (by decide) (by decide) (by decide)
    simpa using this
  · have := append_ne_append_of_ne_at "Poster download timeout (30s)"
      "Failed to save poster file: " "" m 0 (by decide) (by decide) (by decide)
    simpa using this
  · exact append_ne_append_of_ne_at "Poster download request error: "
      "Failed to save poster file: " m m 0 (by decide) (by decide) (by decide)

theorem download_failure_taxonomy_witness :
    ("http://h/p.jpg" : String) ≠ "" ∧ dirname "/tmp/p.jpg" ≠ ""
    ∧ (download_poster .timeout .ok "http://h/p.jpg" "/tmp/p.jpg" []).1
        = (false, "Poster download timeout (30s)") :=
  ⟨by decide, by decide,
   (download_failure_taxonomy "http://h/p.jpg" "/tmp/p.jpg" "boom" .ok [] false []
     (by decide) (by decide)).1⟩

/-! ### Orchestrator lemmas -/

theorem process_poster_res (env : Env) (poster_url : PyVal) (api tok : String)
    (temp_dir : Option String) (fs : List String) :
    (process_poster env poster_url api tok temp_dir fs).1
      = match (process_poster_body env poster_url api tok temp_dir fs).1 with
        | .ok p => p
        | .error e => (false, "Error during poster processing: " ++ e) := rfl

theorem process_poster_fs (env : Env) (poster_url : PyVal) (api tok : String)
    (temp_dir : Option String) (fs : List String) :
    (process_poster env poster_url api tok temp_dir fs).2
      = (if resolveTempPath env temp_dir
            ∈ (process_poster_body env poster_url api tok temp_dir fs).2 then
           if env.rmFails (resolveTempPath env temp_dir) then
             (process_poster_body env poster_url api tok temp_dir fs).2
           else
             fsRemove (process_poster_body env poster_url api tok temp_dir fs).2
               (resolveTempPath env temp_dir)
         else (process_poster_body env poster_url api tok temp_dir fs).2) := rfl

/-- C2: after any run of `process_poster` — success, a download- or
upload-stage failure, or an exception escaping the `try` block — the temp
file does not exist, provided `os.remove` itself does not fail on that path
during the `finally` cleanup. -/
theorem temp_file_gone_after_run (env : Env) (poster_url : PyVal) (api tok : String)
    (temp_dir : Option String) (fs : List String)
    (h : env.rmFails (resolveTempPath env temp_dir) = false) :
    resolveTempPath env temp_dir ∉ (process_poster env poster_url api tok temp_dir fs).2 := by
  rw [process_poster_fs]
  by_cases hin : resolveTempPath env temp_dir
      ∈ (process_poster_body env poster_url api tok temp_dir fs).2
  · simp only [hin, if_true, h, Bool.false_eq_true, if_false, fsRemove]
    intro hmem
    have := (List.mem_filter.mp hmem).2
    simp at this
  · simp only [hin, if_false]
    exact not_false

/-- A run in which both collaborators succeed without touching the
filesystem and cleanup works. -/
def envNoop : Env :=
  { sysTempDir := "/tmp"
    urlId := 7
    dl := fun _ p fsx => (.ok (true, p), p :: fsx)
    ul := fun _ _ _ fsx => (.ok (true, "[img]https://cdn/x.png[/img]"), fsx)
    rmFails := fun _ => false }

theorem temp_file_gone_after_run_witness :
    envNoop.rmFails (resolveTempPath envNoop Option.none) = false
    ∧ resolveTempPath envNoop Option.none
        ∉ (process_poster envNoop (PyVal.str "u") "a" "t" Option.none []).2 :=
  ⟨rfl, temp_file_gone_after_run envNoop (PyVal.str "u") "a" "t" Option.none [] rfl⟩

/-- The upload-success result of `process_poster`, computed from the
collaborator outcomes. -/
theorem process_poster_body_upload_ok (env : Env) (poster_url : PyVal) (api tok : String)
    (temp_dir : Option String) (fs fs1 fs2 : List String) (r res : String)
    (hdl : env.dl poster_url (resolveTempPath env temp_dir) fs = (.ok (true, r), fs1))
    (hul : env.ul api tok (resolveTempPath env temp_dir) fs1 = (.ok (true, res), fs2)) :
    process_poster_body env poster_url api tok temp_dir fs
      = (if pyStartsWith res "[img]" && pyEndsWith res "[/img]"
         then (.ok (true, pyDropRight (pyDrop res 5) 6), fs2)
         else (.ok (true, res), fs2)) := by
  simp only [process_poster_body, hdl, hul]

/-- C3: when the uploader succeeds, `process_poster` returns the uploader's
result with the 5-character `[img]` prefix and 6-character `[/img]` suffix
stripped when the result both starts with `[img]` and ends with `[/img]`,
and returns it unchanged otherwise; in particular
`[img]https://host/x.png[/img]` yields `https://host/x.png`. -/
theorem upload_result_unwrapped (env : Env) (poster_url : PyVal) (api tok : String)
    (temp_dir : Option String) (fs fs1 fs2 : List String) (r res : String)
    (hdl : env.dl poster_url (resolveTempPath env temp_dir) fs = (.ok (true, r), fs1))
    (hul : env.ul api tok (resolveTempPath env temp_dir) fs1 = (.ok (true, res), fs2)) :
    ((pyStartsWith res "[img]" = true ∧ pyEndsWith res "[/img]" = true) →
      (process_poster env poster_url api tok temp_dir fs).1
        = (true, pyDropRight (pyDrop res 5) 6))
    ∧ (¬(pyStartsWith res "[img]" = true ∧ pyEndsWith res "[/img]" = true) →
      (process_poster env poster_url api tok temp_dir fs).1 = (true, res))
    ∧ (res = "[img]https://host/x.png[/img]" →
      (process_poster env poster_url api tok temp_dir fs).1 = (true, "https://host/x.png")) := by
  have hbody := process_poster_body_upload_ok env poster_url api tok temp_dir fs fs1 fs2 r res
    hdl hul
  refine ⟨fun h12 => ?_, fun hn => ?_, fun he => ?_⟩
  · rw [process_poster_res, hbody, if_pos (by simp [h12.1, h12.2])]
  · rw [process_poster_res, hbody,
      if_neg (by simpa [Bool.and_eq_true] using hn)]
  · subst he
    rw [process_poster_res, hbody, if_pos (by decide)]
    have : pyDropRight (pyDrop "[img]https://host/x.png[/img]" 5) 6 = "https://host/x.png" := by
      decide
    rw [this]

/-- A run whose uploader answers with the bracketed sample URL. -/
def envSampleUpload : Env :=
  { sysTempDir := "/tmp"
    urlId := 2
    dl := fun _ p fsx => (.ok (true, p), p :: fsx)
    ul := fun _ _ _ fsx => (.ok (true, "[img]https://host/x.png[/img]"), fsx)
    rmFails := fun _ => false }

theorem upload_result_unwrapped_witness :
    (process_poster envSampleUpload (PyVal.str "u") "a" "t" Option.none []).1
      = (true, "https://host/x.png") :=
  (upload_result_unwrapped envSampleUpload (PyVal.str "u") "a" "t" Option.none []
      [resolveTempPath envSampleUpload Option.none] [resolveTempPath envSampleUpload Option.none]
      (resolveTempPath envSampleUpload Option.none) "[img]https://host/x.png[/img]"
      rfl rfl).2.2 rfl

/-- The same environment with a different `os.remove` behaviour. -/
def withRm (env : Env) (r : String → Bool) : Env := { env with rmFails := r }

/-- C5: whatever the downloader and uploader collaborators do — including
raising an exception, i.e. an `.error` outcome of the `try` block —
`process_poster` returns an ordinary `(Bool, String)` pair: an escaped
exception becomes `(False, 'Error during poster processing: ...')`; and a
failure of `os.remove` during cleanup is invisible in the returned result,
which is the same under any two cleanup behaviours. -/
theorem orchestrator_total_and_cleanup_silent (env : Env) (poster_url : PyVal)
    (api tok : String) (temp_dir : Option String) (fs : List String)
    (r1 r2 : String → Bool) :
    ((process_poster (withRm env r1) poster_url api tok temp_dir fs).1
      = (process_poster (withRm env r2) poster_url api tok temp_dir fs).1)
    ∧ (∀ e fsx,
        process_poster_body env poster_url api tok temp_dir fs = (.error e, fsx) →
        (process_poster env poster_url api tok temp_dir fs).1
          = (false, "Error during poster processing: " ++ e)) := by
  constructor
  · rw [process_poster_res, process_poster_res]
    rfl
  · intro e fsx hb
    rw [process_poster_res, hb]

/-- A run whose downloader raises. -/
def envRaise : Env :=
  { sysTempDir := "/tmp"
    urlId := 3
    dl := fun _ _ fsx => (.error "boom", fsx)
    ul := fun _ _ _ fsx => (.ok (true, "x"), fsx)
    rmFails := fun _ => false }

theorem orchestrator_total_and_cleanup_silent_witness :
    process_poster_body envRaise (PyVal.str "u") "a" "t" Option.none [] = (.error "boom", [])
    ∧ (process_poster envRaise (PyVal.str "u") "a" "t" Option.none []).1
        = (false, "Error during poster processing: " ++ "boom") :=
  ⟨rfl,
   (orchestrator_total_and_cleanup_silent envRaise (PyVal.str "u") "a" "t" Option.none []
      (fun _ => false) (fun _ => true)).2 "boom" [] rfl⟩

/-! ### Wrapper lemmas -/

theorem firstTruthy_truthy (d : PyDict) (v : PyVal)
    (h : firstTruthy d = Option.some v) : pyTruthy v = true := by
  apply scanTop_truthy d possible_fields
  rw [scanTop_eq_findSome]
  exact h

/-- The extractor only returns a truthy value or the empty-string
sentinel. -/
theorem extract_truthy_or_empty (data : PyDict) (v : PyVal)
    (hwf : dataIsDict data = true)
    (h : get_poster_url_from_data data = .ok v) :
    pyTruthy v = true ∨ v = PyVal.str "" := by
  rw [extract_eq_claim data hwf] at h
  simp only [Except.ok.injEq] at h
  subst h
  unfold claimExtract
  cases h1 : firstTruthy data with
  | some w => exact Or.inl (firstTruthy_truthy data w h1)
  | none =>
    cases hd : dictGet data "data" with
    | none => exact Or.inr rfl
    | some sub =>
      cases sub with
      | dict d2 =>
        cases h2 : firstTruthy d2 with
        | some w =>
          left
          simp only [h2]
          exact firstTruthy_truthy d2 w h2
        | none =>
          right
          simp only [h2]
      | str s => exact Or.inr rfl
      | int n => exact Or.inr rfl
      | bool b => exact Or.inr rfl
      | none => exact Or.inr rfl
      | list l => exact Or.inr rfl

/-- The shapes the `try` block of the orchestrator can produce. -/
theorem process_poster_body_shape (env : Env) (poster_url : PyVal) (api tok : String)
    (temp_dir : Option String) (fs : List String) :
    (∃ e, (process_poster_body env poster_url api tok temp_dir fs).1 = .error e)
    ∨ (∃ s, (process_poster_body env poster_url api tok temp_dir fs).1 = .ok (true, s))
    ∨ (∃ m, (process_poster_body env poster_url api tok temp_dir fs).1
        = .ok (false, "Failed to download poster: " ++ m))
    ∨ (∃ m, (process_poster_body env poster_url api tok temp_dir fs).1
        = .ok (false, "Failed to upload poster: " ++ m)) := by
  cases hdl : env.dl poster_url (resolveTempPath env temp_dir) fs with
  | mk r1 fs1 =>
    cases r1 with
    | error e => exact Or.inl ⟨e, by simp [process_poster_body, hdl]⟩
    | ok p =>
      cases p with
      | mk b m =>
        cases b with
        | false =>
          exact Or.inr (Or.inr (Or.inl ⟨m, by simp [process_poster_body, hdl]⟩))
        | true =>
          cases hul : env.ul api tok (resolveTempPath env temp_dir) fs1 with
          | mk r2 fs2 =>
            cases r2 with
            | error e =>
              exact Or.inl ⟨e, by simp [process_poster_body, hdl, hul]⟩
            | ok q =>
              cases q with
              | mk b2 m2 =>
                cases b2 with
                | false =>
                  exact Or.inr (Or.inr (Or.inr ⟨m2, by simp [process_poster_body, hdl, hul]⟩))
                | true =>
                  refine Or.inr (Or.inl
                    ⟨if pyStartsWith m2 "[img]" && pyEndsWith m2 "[/img]"
                      then pyDropRight (pyDrop m2 5) 6 else m2, ?_⟩)
                  simp only [process_poster_body, hdl, hul]
                  split <;> simp

/-- The orchestrator never answers with the wrapper's fixed
"no poster URL found" message: its failure messages all carry one of the
stage prefixes. -/
theorem process_poster_msg_not_fixed (env : Env) (poster_url : PyVal) (api tok : String)
    (temp_dir : Option String) (fs : List String) :
    (process_poster env poster_url api tok temp_dir fs).1
      ≠ (false, "No poster URL found in PT-Gen response") := by
  rw [process_poster_res]
  rcases process_poster_body_shape env poster_url api tok temp_dir fs with
    ⟨e, hb⟩ | ⟨s, hb⟩ | ⟨m, hb⟩ | ⟨m, hb⟩ <;> rw [hb] <;> intro hEq
  · have h2 := congrArg Prod.snd hEq
    have h3 := append_ne_append_of_ne_at "Error during poster processing: "
      "No poster URL found in PT-Gen response" e "" 0 (by decide) (by decide) (by decide)
    simp only [String.append_empty] at h3
    exact h3 h2
  · exact Bool.noConfusion (congrArg Prod.fst hEq)
  · have h2 := congrArg Prod.snd hEq
    have h3 := append_ne_append_of_ne_at "Failed to download poster: "
      "No poster URL found in PT-Gen response" m "" 0 (by decide) (by decide) (by decide)
    simp only [String.append_empty] at h3
    exact h3 h2
  · have h2 := congrArg Prod.snd hEq
    have h3 := append_ne_append_of_ne_at "Failed to upload poster: "
      "No poster URL found in PT-Gen response" m "" 0 (by decide) (by decide) (by decide)
    simp only [String.append_empty] at h3
    exact h3 h2

/-- C9: for every response mapping of the spec's shape, the wrapper answers
the fixed `(False, 'No poster URL found in PT-Gen response')` exactly when
extraction yields the empty string, and otherwise its result is exactly
`process_poster` applied to the extracted value with the same endpoint,
token and temp directory. -/
theorem wrapper_short_circuits (env : Env) (data : PyDict) (api tok : String)
    (temp_dir : Option String) (fs : List String) (hwf : dataIsDict data = true) :
    (get_poster_from_pt_gen_response env data api tok temp_dir fs
        = .ok ((false, "No poster URL found in PT-Gen response"), fs)
      ↔ get_poster_url_from_data data = .ok (PyVal.str ""))
    ∧ (∀ v, get_poster_url_from_data data = .ok v → pyTruthy v = true →
        get_poster_from_pt_gen_response env data api tok temp_dir fs
          = .ok (process_poster env v api tok temp_dir fs)) := by
  have hok := extract_eq_claim data hwf
  constructor
  · constructor
    · intro hw
      simp only [get_poster_from_pt_gen_response, hok] at hw
      by_cases ht : pyTruthy (claimExtract data) = true
      · rw [if_pos ht] at hw
        simp only [Except.ok.injEq] at hw
        exact absurd (congrArg Prod.fst hw)
          (process_poster_msg_not_fixed env (claimExtract data) api tok temp_dir fs)
      · rcases extract_truthy_or_empty data (claimExtract data) hwf hok with h | h
        · exact absurd h ht
        · rw [hok, h]
    · intro hv
      have hemp : "".isEmpty = true := rfl
      simp [get_poster_from_pt_gen_response, hv, pyTruthy, hemp]
  · intro v hv ht
    simp [get_poster_from_pt_gen_response, hv, ht]

theorem wrapper_short_circuits_witness :
    dataIsDict ([] : PyDict) = true
    ∧ get_poster_from_pt_gen_response envNoop [] "a" "t" Option.none []
        = .ok ((false, "No poster URL found in PT-Gen response"), []) :=
  ⟨rfl, (wrapper_short_circuits envNoop [] "a" "t" Option.none [] rfl).1.mpr rfl⟩
